import Mathlib

/-!
# Teleterm cluster authentication

A shallow embedding of `lib/teleterm/clusters/cluster_auth.go`:

* the passwordless prompt relay `pwdlessLoginPrompt` (`PromptPIN`, `PromptTouch`,
  `ackTouch`, `PromptCredential`), run against a gRPC stream whose peer is an
  arbitrary function of the history of the stream;
* the login orchestration `Cluster.login`, run against a session client whose
  calls have arbitrary outcomes.

Go's multiple return values are pairs, a `nil` error is `none`, and every
stateful receiver is passed in and handed back explicitly.
-/

namespace Teleterm

/-! ## Errors -/

/-- The classification of a Go error that `trace.IsBadParameter` and its siblings
observe, together with the sentinel errors a gRPC stream hands out. -/
inductive ErrKind
  | badParameter
  | notFound
  | accessDenied
  | canceled
  | deadlineExceeded
  | eof
  | unclassified
  deriving DecidableEq, Repr

/-- A non-nil Go `error`. `traced` records whether the value has been wrapped by the
`trace` package (and so carries a stack trace). -/
structure GoError where
  kind : ErrKind
  msg : String
  traced : Bool
  deriving DecidableEq, Repr

/-- `trace.Wrap(err)` for a non-nil `err`: the kind and the message of the error are
kept, a stack trace is attached. -/
def traceWrapErr (e : GoError) : GoError :=
  { e with traced := true }

/-- `trace.Wrap(err)`: `nil` stays `nil`. -/
def traceWrap : Option GoError → Option GoError
  | none => none
  | some e => some (traceWrapErr e)

/-- `trace.BadParameter(msg)`. -/
def traceBadParameter (msg : String) : GoError :=
  { kind := ErrKind.badParameter, msg := msg, traced := true }

/-- `errors.New(msg)`: an error of the standard library, with no classification. -/
def errorsNew (msg : String) : GoError :=
  { kind := ErrKind.unclassified, msg := msg, traced := false }

/-- `trace.IsBadParameter(err)`. -/
def traceIsBadParameter (e : GoError) : Bool :=
  e.kind == ErrKind.badParameter

/-! ## Wire messages -/

/-- Modelled from the spec: the prompt kind of a core→remote message
(`api.PasswordlessPrompt`), whose declaration is generated code outside the sources. -/
inductive PasswordlessPrompt
  | unspecified
  | pin
  | tap
  | credential
  deriving DecidableEq, Repr

/-- Modelled from the spec: one entry of the credential list on the wire
(`api.CredentialInfo`), a username. -/
structure ApiCredentialInfo where
  Username : String
  deriving DecidableEq, Repr

/-- Modelled from the spec: a core→remote message (`api.LoginPasswordlessResponse`):
a prompt kind and, for a credential prompt, the ordered list of credentials. -/
structure LoginPasswordlessResponse where
  Prompt : PasswordlessPrompt
  Credentials : List ApiCredentialInfo
  deriving DecidableEq, Repr

/-- Modelled from the spec: the PIN reply, `pin: string`. -/
structure LoginPasswordlessPINResponse where
  Pin : String
  deriving DecidableEq, Repr

/-- Modelled from the spec: the credential reply, `index: integer` (an `int64` on the
wire; every `int64` is an `Int`). -/
structure LoginPasswordlessCredentialResponse where
  Index : Int
  deriving DecidableEq, Repr

/-- Modelled from the spec: a remote→core message (`api.LoginPasswordlessRequest`), a
one-of that is unset, or carries the initial request, a PIN reply or a credential
reply; the carried reply is a pointer and may be nil. -/
inductive LoginPasswordlessRequest
  | unset
  | init
  | pin (r : Option LoginPasswordlessPINResponse)
  | credential (r : Option LoginPasswordlessCredentialResponse)
  deriving DecidableEq, Repr

/-- The generated getter `req.GetPin()`: the PIN reply when the one-of carries one,
`nil` otherwise. -/
def LoginPasswordlessRequest.GetPin : LoginPasswordlessRequest → Option LoginPasswordlessPINResponse
  | LoginPasswordlessRequest.pin r => r
  | _ => none

/-- The generated getter `req.GetCredential()`. -/
def LoginPasswordlessRequest.GetCredential :
    LoginPasswordlessRequest → Option LoginPasswordlessCredentialResponse
  | LoginPasswordlessRequest.credential r => r
  | _ => none

/-! ## The stream -/

deriving instance DecidableEq for Except

/-- One call made on the stream, with what it returned. -/
inductive StreamEvent
  | send (msg : LoginPasswordlessResponse) (err : Option GoError)
  | recv (res : Except GoError LoginPasswordlessRequest)
  deriving DecidableEq

/-- The stream `api.TerminalService_LoginPasswordlessServer`. The relay only calls
`Send` and `Recv`; what a call returns is decided by the transport and the remote
party, here any function of the calls made so far (and of the message sent).
`trace` is the list of calls made so far, oldest first. -/
structure LoginPasswordlessServer where
  sendOutcome : List StreamEvent → LoginPasswordlessResponse → Option GoError
  recvOutcome : List StreamEvent → Except GoError LoginPasswordlessRequest
  trace : List StreamEvent

/-- `stream.Send(msg)`. -/
def LoginPasswordlessServer.Send (s : LoginPasswordlessServer) (msg : LoginPasswordlessResponse) :
    Option GoError × LoginPasswordlessServer :=
  let r := s.sendOutcome s.trace msg
  (r, { s with trace := s.trace ++ [StreamEvent.send msg r] })

/-- `stream.Recv()`. -/
def LoginPasswordlessServer.Recv (s : LoginPasswordlessServer) :
    Except GoError LoginPasswordlessRequest × LoginPasswordlessServer :=
  let r := s.recvOutcome s.trace
  (r, { s with trace := s.trace ++ [StreamEvent.recv r] })

/-- Whether an event is a `Send`. -/
def StreamEvent.isSend : StreamEvent → Bool
  | StreamEvent.send _ _ => true
  | StreamEvent.recv _ => false

/-- Whether an event is a `Recv`. -/
def StreamEvent.isRecv : StreamEvent → Bool
  | StreamEvent.send _ _ => false
  | StreamEvent.recv _ => true

/-- The messages passed to `Send`, oldest first. -/
def sentMessages : List StreamEvent → List LoginPasswordlessResponse
  | [] => []
  | StreamEvent.send m _ :: t => m :: sentMessages t
  | StreamEvent.recv _ :: t => sentMessages t

/-! ## The authenticator's credentials -/

/-- Modelled from the spec: the user of a resident credential (`wancli.UserInfo`); the
relay reads `Name`. -/
structure UserInfo where
  UserHandle : List Nat
  Name : String
  deriving DecidableEq, Repr

/-- Modelled from the spec: a resident credential offered by the authenticator
(`wancli.CredentialInfo`); `ID` tells two credentials of one username apart. -/
structure CredentialInfo where
  ID : List Nat
  User : UserInfo
  deriving DecidableEq, Repr

/-- The `less` closure handed to `sort.Slice`: `c1.User.Name < c2.User.Name`. Go compares
the bytes of the two strings lexicographically; on UTF-8 text that is the lexicographic
order of the code points, which is also the order `<` of `String`. -/
def credLess (c1 c2 : CredentialInfo) : Bool :=
  decide (c1.User.Name.toList < c2.User.Name.toList)

/-- The contract of `sort.Slice(x, less)` of Go's standard library: the slice is
rearranged (a permutation) so that no element is `less` than one before it. The sort
is not stable, so the order of elements that compare equal is left to `run`. -/
structure SliceSorter (α : Type) (less : α → α → Bool) where
  run : List α → List α
  perm : ∀ xs, (run xs).Perm xs
  ordered : ∀ xs, (run xs).Pairwise (fun a b => less b a = false)

/-- Stable insertion sort by username, which is what `sort.Slice` computes on a slice of
at most twelve elements; one sorter that meets the contract. -/
def insertionSorter : SliceSorter CredentialInfo credLess where
  run := List.insertionSort (fun a b => credLess b a = false)
  perm := List.perm_insertionSort _
  ordered := by
    intro xs
    haveI : IsTotal CredentialInfo (fun a b => credLess b a = false) :=
      ⟨fun a b => by
        simp only [credLess, decide_eq_false_iff_not, not_lt]
        exact le_total _ _⟩
    haveI : IsTrans CredentialInfo (fun a b => credLess b a = false) :=
      ⟨fun a b c hab hbc => by
        simp only [credLess, decide_eq_false_iff_not, not_lt] at *
        exact le_trans hab hbc⟩
    exact List.sorted_insertionSort _ xs

/-! ## The passwordless prompt relay -/

/-- The relay `pwdlessLoginPrompt`: a logger, seen as the list of records written to
it, and the stream. -/
structure pwdlessLoginPrompt where
  log : List String
  Stream : LoginPasswordlessServer

/-- `PromptPIN` prompts the user for a PIN. -/
def pwdlessLoginPrompt.PromptPIN (p : pwdlessLoginPrompt) :
    (String × Option GoError) × pwdlessLoginPrompt :=
  match p.Stream.Send { Prompt := PasswordlessPrompt.pin, Credentials := [] } with
  | (some err, s1) => (("", some (traceWrapErr err)), { p with Stream := s1 })
  | (none, s1) =>
    match s1.Recv with
    | (Except.error err, s2) => (("", some (traceWrapErr err)), { p with Stream := s2 })
    | (Except.ok req, s2) =>
      match req.GetPin with
      | none => (("", some (traceBadParameter "pin is required")), { p with Stream := s2 })
      | some pinRes =>
        if pinRes.Pin = "" then
          (("", some (traceBadParameter "pin is required")), { p with Stream := s2 })
        else
          ((pinRes.Pin, none), { p with Stream := s2 })

/-- `ackTouch`, the acknowledgement callback: writes a debug record, returns nil. -/
def pwdlessLoginPrompt.ackTouch (p : pwdlessLoginPrompt) : Option GoError × pwdlessLoginPrompt :=
  (none, { p with log := p.log ++ ["Detected security key tap"] })

/-- `PromptTouch` prompts the user for a security key touch: the callback and the
wrapped result of the one `Send`. -/
def pwdlessLoginPrompt.PromptTouch (p : pwdlessLoginPrompt) :
    ((pwdlessLoginPrompt → Option GoError × pwdlessLoginPrompt) × Option GoError)
      × pwdlessLoginPrompt :=
  match p.Stream.Send { Prompt := PasswordlessPrompt.tap, Credentials := [] } with
  | (r, s1) => ((pwdlessLoginPrompt.ackTouch, traceWrap r), { p with Stream := s1 })

/-- The conversion of the sorted credentials to the gRPC message. -/
def toApiCredentials (deviceCreds : List CredentialInfo) : List ApiCredentialInfo :=
  deviceCreds.map (fun cred => { Username := cred.User.Name })

/-- What a call of `PromptCredential` leaves behind: the returned pair, the caller's
slice (sorted in place once the call got that far) and the relay. -/
structure PromptCredentialResult where
  cred : Option CredentialInfo
  err : Option GoError
  deviceCreds : List CredentialInfo
  p : pwdlessLoginPrompt

/-- `PromptCredential` prompts the user to select a login name in the list of logins. -/
def pwdlessLoginPrompt.PromptCredential (srt : SliceSorter CredentialInfo credLess)
    (p : pwdlessLoginPrompt) (deviceCreds : List CredentialInfo) : PromptCredentialResult :=
  if deviceCreds.length = 0 then
    { cred := none
      err := some (errorsNew "attempted to prompt credential with empty credentials")
      deviceCreds := deviceCreds
      p := p }
  else
    let sorted := srt.run deviceCreds
    let creds := toApiCredentials sorted
    match p.Stream.Send { Prompt := PasswordlessPrompt.credential, Credentials := creds } with
    | (some err, s1) =>
      { cred := none, err := some (traceWrapErr err), deviceCreds := sorted,
        p := { p with Stream := s1 } }
    | (none, s1) =>
      match s1.Recv with
      | (Except.error err, s2) =>
        { cred := none, err := some (traceWrapErr err), deviceCreds := sorted,
          p := { p with Stream := s2 } }
      | (Except.ok req, s2) =>
        match req.GetCredential with
        | none =>
          { cred := none, err := some (traceBadParameter "login name must be selected"),
            deviceCreds := sorted, p := { p with Stream := s2 } }
        | some credRes =>
          let selectedIndex := credRes.Index
          if h : selectedIndex < 0 ∨ selectedIndex > (creds.length : Int) - 1 then
            { cred := none, err := some (traceBadParameter "invalid login name"),
              deviceCreds := sorted, p := { p with Stream := s2 } }
          else
            { cred := some (sorted.get ⟨selectedIndex.toNat, by
                have hl : creds.length = sorted.length := List.length_map _ _
                omega⟩)
              err := none
              deviceCreds := sorted
              p := { p with Stream := s2 } }

/-! ## Login orchestration -/

/-- Modelled from the spec: the credential material produced by a successful
acquisition (`client.KeyRing`); it carries a username. -/
structure KeyRing where
  Username : String
  deriving DecidableEq, Repr

/-- Modelled from the spec: the cached profile status of a cluster
(`client.ProfileStatus`): username, related database connections, validity. -/
structure ProfileStatus where
  Username : String
  Databases : List String
  ValidUntil : Nat
  deriving DecidableEq, Repr

/-- One call made on the session client or on a connection it opened, with what it
returned. -/
inductive ClientEvent
  | sshLogin (res : Except GoError KeyRing)
  | updateUsername (username : String)
  | connectToRootCluster (key : KeyRing) (err : Option GoError)
  | attemptDeviceLogin (key : KeyRing) (err : Option GoError)
  | saveProfile (makeCurrent : Bool) (err : Option GoError)
  | profileStatus (res : Except GoError ProfileStatus)
  | rootAuthClientClose
  | proxyClientClose
  deriving DecidableEq

/-- The session client `client.TeleportClient` as `login` uses it: the fields `login`
writes, and the collaborator calls, whose results are any functions of the calls made
so far and of the arguments. `F` is the type of the credential-acquisition function
`client.SSHLoginFunc`, which `login` only passes on. `calls` is the list of calls made
so far, oldest first. -/
structure TeleportClient (F : Type) where
  SiteName : String
  Username : String
  AuthConnector : String
  sshLoginOutcome : List ClientEvent → F → Except GoError KeyRing
  connectOutcome : List ClientEvent → KeyRing → Option GoError
  deviceLoginOutcome : List ClientEvent → KeyRing → Option GoError
  saveProfileOutcome : List ClientEvent → Bool → Option GoError
  profileStatusOutcome : List ClientEvent → Except GoError ProfileStatus
  calls : List ClientEvent

/-- Appends one call to the history of the client. -/
def TeleportClient.record {F : Type} (tc : TeleportClient F) (ev : ClientEvent) : TeleportClient F :=
  { tc with calls := tc.calls ++ [ev] }

/-- `tc.SSHLogin(ctx, sshLoginFunc)`. -/
def TeleportClient.SSHLogin {F : Type} (tc : TeleportClient F) (sshLoginFunc : F) :
    Except GoError KeyRing × TeleportClient F :=
  let r := tc.sshLoginOutcome tc.calls sshLoginFunc
  (r, tc.record (ClientEvent.sshLogin r))

/-- `tc.LocalAgent().UpdateUsername(username)`. -/
def TeleportClient.UpdateUsername {F : Type} (tc : TeleportClient F) (username : String) :
    TeleportClient F :=
  tc.record (ClientEvent.updateUsername username)

/-- `tc.ConnectToRootCluster(ctx, key)`; on success the proxy client and the root auth
client are open. -/
def TeleportClient.ConnectToRootCluster {F : Type} (tc : TeleportClient F) (key : KeyRing) :
    Option GoError × TeleportClient F :=
  let r := tc.connectOutcome tc.calls key
  (r, tc.record (ClientEvent.connectToRootCluster key r))

/-- `tc.AttemptDeviceLogin(ctx, key, rootAuthClient)`. -/
def TeleportClient.AttemptDeviceLogin {F : Type} (tc : TeleportClient F) (key : KeyRing) :
    Option GoError × TeleportClient F :=
  let r := tc.deviceLoginOutcome tc.calls key
  (r, tc.record (ClientEvent.attemptDeviceLogin key r))

/-- `tc.SaveProfile(makeCurrent)`. -/
def TeleportClient.SaveProfile {F : Type} (tc : TeleportClient F) (makeCurrent : Bool) :
    Option GoError × TeleportClient F :=
  let r := tc.saveProfileOutcome tc.calls makeCurrent
  (r, tc.record (ClientEvent.saveProfile makeCurrent r))

/-- `tc.ProfileStatus()`. -/
def TeleportClient.ProfileStatus {F : Type} (tc : TeleportClient F) :
    Except GoError ProfileStatus × TeleportClient F :=
  let r := tc.profileStatusOutcome tc.calls
  (r, tc.record (ClientEvent.profileStatus r))

/-- The cluster: the cached profile status and the session client. -/
structure Cluster (F : Type) where
  status : ProfileStatus
  clusterClient : TeleportClient F

/-- The part of `login` that runs while the root-cluster connection is open: device
login, saving the profile, reloading the status. -/
def Cluster.loginConnected {F : Type} (c : Cluster F) (key : KeyRing) : Option GoError × Cluster F :=
  match c.clusterClient.AttemptDeviceLogin key with
  | (some err, tc1) => (some (traceWrapErr err), { c with clusterClient := tc1 })
  | (none, tc1) =>
    match tc1.SaveProfile true with
    | (some err, tc2) => (some (traceWrapErr err), { c with clusterClient := tc2 })
    | (none, tc2) =>
      match tc2.ProfileStatus with
      | (Except.error err, tc3) => (some (traceWrapErr err), { c with clusterClient := tc3 })
      | (Except.ok status, tc3) => (none, { status := status, clusterClient := tc3 })

/-- The deferred function of `login`: `rootAuthClient.Close()`, then
`proxyClient.Close()`. -/
def Cluster.closeRootClusterClients {F : Type} (c : Cluster F) : Cluster F :=
  { c with clusterClient :=
      (c.clusterClient.record ClientEvent.rootAuthClientClose).record ClientEvent.proxyClientClose }

/-- `login`: acquires the credential, connects to the root cluster, attempts device
login, saves the profile and reloads the cached status. -/
def Cluster.login {F : Type} (c : Cluster F) (sshLoginFunc : F) : Option GoError × Cluster F :=
  let tc0 := { c.clusterClient with SiteName := "" }
  match tc0.SSHLogin sshLoginFunc with
  | (Except.error err, tc1) => (some (traceWrapErr err), { c with clusterClient := tc1 })
  | (Except.ok key, tc1) =>
    let tc2 := tc1.UpdateUsername key.Username
    let tc3 := { tc2 with Username := key.Username }
    match tc3.ConnectToRootCluster key with
    | (some err, tc4) => (some (traceWrapErr err), { c with clusterClient := tc4 })
    | (none, tc4) =>
      match Cluster.loginConnected { c with clusterClient := tc4 } key with
      | (ret, c1) => (ret, c1.closeRootClusterClients)

/-- The calls a run of `login` adds to the history of the client. -/
def Cluster.loginCalls {F : Type} (c : Cluster F) (sshLoginFunc : F) : List ClientEvent :=
  (c.login sshLoginFunc).2.clusterClient.calls.drop c.clusterClient.calls.length

/-- The calls a run of `PromptPIN` adds to the trace of the stream. -/
def pwdlessLoginPrompt.pinCalls (p : pwdlessLoginPrompt) : List StreamEvent :=
  p.PromptPIN.2.Stream.trace.drop p.Stream.trace.length

/-- The calls a run of `PromptCredential` adds to the trace of the stream. -/
def pwdlessLoginPrompt.credentialCalls (srt : SliceSorter CredentialInfo credLess)
    (p : pwdlessLoginPrompt) (deviceCreds : List CredentialInfo) : List StreamEvent :=
  (p.PromptCredential srt deviceCreds).p.Stream.trace.drop p.Stream.trace.length

/-- The calls a run of `PromptTouch` adds to the trace of the stream. -/
def pwdlessLoginPrompt.touchCalls (p : pwdlessLoginPrompt) : List StreamEvent :=
  p.PromptTouch.2.Stream.trace.drop p.Stream.trace.length

/-! ## Messages and checks used in the statements -/

/-- The credential-list message `PromptCredential` builds from the caller's slice. -/
def credentialPromptMessage (srt : SliceSorter CredentialInfo credLess)
    (deviceCreds : List CredentialInfo) : LoginPasswordlessResponse :=
  { Prompt := PasswordlessPrompt.credential
    Credentials := toApiCredentials (srt.run deviceCreds) }

/-- The PIN-request message `PromptPIN` sends. -/
def pinPromptMessage : LoginPasswordlessResponse :=
  { Prompt := PasswordlessPrompt.pin, Credentials := [] }

/-- The touch-request message `PromptTouch` sends. -/
def touchPromptMessage : LoginPasswordlessResponse :=
  { Prompt := PasswordlessPrompt.tap, Credentials := [] }

/-- Whether, reading the calls from the oldest, a successful device login comes before
any call that saves the profile. -/
def deviceLoginBeforeSave : List ClientEvent → Bool
  | [] => true
  | ClientEvent.attemptDeviceLogin _ none :: _ => true
  | ClientEvent.saveProfile _ _ :: _ => false
  | _ :: t => deviceLoginBeforeSave t

/-- Whether a call is `ConnectToRootCluster`. -/
def ClientEvent.isConnectToRootCluster : ClientEvent → Bool
  | ClientEvent.connectToRootCluster _ _ => true
  | _ => false

/-- Whether a call closes one of the two clients of the root-cluster connection. -/
def ClientEvent.isClose : ClientEvent → Bool
  | ClientEvent.rootAuthClientClose => true
  | ClientEvent.proxyClientClose => true
  | _ => false

/-- Whether a call is `SaveProfile`. -/
def ClientEvent.isSaveProfile : ClientEvent → Bool
  | ClientEvent.saveProfile _ _ => true
  | _ => false

/-- Whether a call is `ProfileStatus`. -/
def ClientEvent.isProfileStatus : ClientEvent → Bool
  | ClientEvent.profileStatus _ => true
  | _ => false

/-! ## Concrete inputs -/

/-- A stream on which every `Send` succeeds and every `Recv` delivers `req`. -/
def replyingStream (req : LoginPasswordlessRequest) : LoginPasswordlessServer :=
  { sendOutcome := fun _ _ => none, recvOutcome := fun _ => Except.ok req, trace := [] }

/-- A relay on a stream on which every `Send` succeeds and every `Recv` delivers `req`. -/
def replyingPrompt (req : LoginPasswordlessRequest) : pwdlessLoginPrompt :=
  { log := [], Stream := replyingStream req }

/-- A relay on a stream whose `Send` fails with `e`. -/
def sendFailingPrompt (e : GoError) : pwdlessLoginPrompt :=
  { log := []
    Stream := { sendOutcome := fun _ _ => some e, recvOutcome := fun _ => Except.error e, trace := [] } }

/-- A relay on a stream whose `Send` succeeds and whose `Recv` fails with `e`. -/
def recvFailingPrompt (e : GoError) : pwdlessLoginPrompt :=
  { log := []
    Stream := { sendOutcome := fun _ _ => none, recvOutcome := fun _ => Except.error e, trace := [] } }

/-- The error of a cancelled context, `context.Canceled`. -/
def contextCanceled : GoError :=
  { kind := ErrKind.canceled, msg := "context canceled", traced := false }

/-- The credential of the user `name`. -/
def credOf (name : String) : CredentialInfo :=
  { ID := [], User := { UserHandle := [], Name := name } }

/-- The status cached before a login attempt in the concrete runs. -/
def staleStatus : ProfileStatus :=
  { Username := "", Databases := [], ValidUntil := 0 }

/-- The status the profile holds after a login in the concrete runs. -/
def freshStatus : ProfileStatus :=
  { Username := "alice", Databases := [], ValidUntil := 100 }

/-- A cluster whose session client answers every call with the given results. -/
def scriptedCluster (ssh : Except GoError KeyRing) (conn dev save : Option GoError)
    (reload : Except GoError ProfileStatus) : Cluster Unit :=
  { status := staleStatus
    clusterClient :=
      { SiteName := "leaf", Username := "", AuthConnector := "local"
        sshLoginOutcome := fun _ _ => ssh
        connectOutcome := fun _ _ => conn
        deviceLoginOutcome := fun _ _ => dev
        saveProfileOutcome := fun _ _ => save
        profileStatusOutcome := fun _ => reload
        calls := [] } }

/-- Some failure of a collaborator. -/
def someFailure : GoError :=
  { kind := ErrKind.accessDenied, msg := "denied", traced := false }

/-! ## Errors: wrapping keeps the kind -/

theorem traceWrapErr_kind (e : GoError) : (traceWrapErr e).kind = e.kind := rfl

theorem traceWrapErr_msg (e : GoError) : (traceWrapErr e).msg = e.msg := rfl

theorem traceIsBadParameter_wrap (e : GoError) :
    traceIsBadParameter (traceWrapErr e) = traceIsBadParameter e := rfl

theorem traceIsBadParameter_errorsNew (msg : String) :
    traceIsBadParameter (errorsNew msg) = false := rfl

theorem traceIsBadParameter_badParameter (msg : String) :
    traceIsBadParameter (traceBadParameter msg) = true := rfl

/-! ## Sorting -/

theorem SliceSorter.length_run {α : Type} {less : α → α → Bool} (srt : SliceSorter α less)
    (xs : List α) : (srt.run xs).length = xs.length :=
  (srt.perm xs).length_eq

theorem credLess_eq_false_iff (a b : CredentialInfo) :
    credLess b a = false ↔ a.User.Name ≤ b.User.Name := by
  simp only [credLess, decide_eq_false_iff_not, not_lt, String.le_iff_toList_le]

theorem sorted_by_username (srt : SliceSorter CredentialInfo credLess)
    (deviceCreds : List CredentialInfo) :
    (srt.run deviceCreds).Pairwise (fun a b => a.User.Name ≤ b.User.Name) :=
  (srt.ordered deviceCreds).imp (fun h => (credLess_eq_false_iff _ _).1 h)

theorem toApiCredentials_getElem? (l : List CredentialInfo) (k : Nat) :
    ((toApiCredentials l)[k]?).map ApiCredentialInfo.Username
      = (l[k]?).map (fun c => c.User.Name) := by
  simp [toApiCredentials, List.getElem?_map]
  cases l[k]? <;> rfl

/-! ## `PromptPIN`, path by path -/

theorem promptPIN_send_failed (p : pwdlessLoginPrompt) (e : GoError)
    (hsend : p.Stream.sendOutcome p.Stream.trace pinPromptMessage = some e) :
    p.PromptPIN.1 = ("", some (traceWrapErr e)) ∧
    p.pinCalls = [StreamEvent.send pinPromptMessage (some e)] := by
  simp only [pinPromptMessage] at hsend
  simp [pwdlessLoginPrompt.PromptPIN, pwdlessLoginPrompt.pinCalls, LoginPasswordlessServer.Send,
    hsend, pinPromptMessage]

theorem promptPIN_recv_failed (p : pwdlessLoginPrompt) (e : GoError)
    (hsend : p.Stream.sendOutcome p.Stream.trace pinPromptMessage = none)
    (hrecv : p.Stream.recvOutcome
      (p.Stream.trace ++ [StreamEvent.send pinPromptMessage none]) = Except.error e) :
    p.PromptPIN.1 = ("", some (traceWrapErr e)) ∧
    p.pinCalls = [StreamEvent.send pinPromptMessage none, StreamEvent.recv (Except.error e)] := by
  simp only [pinPromptMessage] at hsend hrecv
  simp [pwdlessLoginPrompt.PromptPIN, pwdlessLoginPrompt.pinCalls, LoginPasswordlessServer.Send,
    LoginPasswordlessServer.Recv, hsend, hrecv, pinPromptMessage]

theorem promptPIN_received (p : pwdlessLoginPrompt) (req : LoginPasswordlessRequest)
    (hsend : p.Stream.sendOutcome p.Stream.trace pinPromptMessage = none)
    (hrecv : p.Stream.recvOutcome
      (p.Stream.trace ++ [StreamEvent.send pinPromptMessage none]) = Except.ok req) :
    p.PromptPIN.1 =
      (match req.GetPin with
       | none => ("", some (traceBadParameter "pin is required"))
       | some pinRes =>
         if pinRes.Pin = "" then ("", some (traceBadParameter "pin is required"))
         else (pinRes.Pin, none)) ∧
    p.pinCalls = [StreamEvent.send pinPromptMessage none, StreamEvent.recv (Except.ok req)] := by
  simp only [pinPromptMessage] at hsend hrecv
  simp only [pwdlessLoginPrompt.PromptPIN, pwdlessLoginPrompt.pinCalls,
    LoginPasswordlessServer.Send, LoginPasswordlessServer.Recv, hsend, hrecv, pinPromptMessage]
  cases hg : req.GetPin with
  | none => simp
  | some pinRes =>
    by_cases hp : pinRes.Pin = "" <;> simp [hp]

theorem promptPIN_calls_bounded (p : pwdlessLoginPrompt) :
    p.pinCalls.countP StreamEvent.isSend = 1 ∧ p.pinCalls.countP StreamEvent.isRecv ≤ 1 := by
  cases hs : p.Stream.sendOutcome p.Stream.trace pinPromptMessage with
  | some e => simp [(promptPIN_send_failed p e hs).2, StreamEvent.isSend, StreamEvent.isRecv]
  | none =>
    cases hr : p.Stream.recvOutcome (p.Stream.trace ++ [StreamEvent.send pinPromptMessage none]) with
    | error e => simp [(promptPIN_recv_failed p e hs hr).2, StreamEvent.isSend, StreamEvent.isRecv]
    | ok req => simp [(promptPIN_received p req hs hr).2, StreamEvent.isSend, StreamEvent.isRecv]

/-! ## `PromptCredential`, path by path -/

theorem promptCredential_nil (srt : SliceSorter CredentialInfo credLess) (p : pwdlessLoginPrompt) :
    p.PromptCredential srt [] =
      { cred := none
        err := some (errorsNew "attempted to prompt credential with empty credentials")
        deviceCreds := []
        p := p } := by
  simp [pwdlessLoginPrompt.PromptCredential]

theorem promptCredential_send_failed (srt : SliceSorter CredentialInfo credLess)
    (p : pwdlessLoginPrompt) (deviceCreds : List CredentialInfo) (e : GoError)
    (hne : deviceCreds ≠ [])
    (hsend : p.Stream.sendOutcome p.Stream.trace (credentialPromptMessage srt deviceCreds)
      = some e) :
    (p.PromptCredential srt deviceCreds).cred = none ∧
    (p.PromptCredential srt deviceCreds).err = some (traceWrapErr e) ∧
    p.credentialCalls srt deviceCreds
      = [StreamEvent.send (credentialPromptMessage srt deviceCreds) (some e)] := by
  simp only [credentialPromptMessage] at hsend
  simp [pwdlessLoginPrompt.PromptCredential, pwdlessLoginPrompt.credentialCalls,
    LoginPasswordlessServer.Send, hsend, hne, credentialPromptMessage]

theorem promptCredential_recv_failed (srt : SliceSorter CredentialInfo credLess)
    (p : pwdlessLoginPrompt) (deviceCreds : List CredentialInfo) (e : GoError)
    (hne : deviceCreds ≠ [])
    (hsend : p.Stream.sendOutcome p.Stream.trace (credentialPromptMessage srt deviceCreds) = none)
    (hrecv : p.Stream.recvOutcome (p.Stream.trace ++
      [StreamEvent.send (credentialPromptMessage srt deviceCreds) none]) = Except.error e) :
    (p.PromptCredential srt deviceCreds).cred = none ∧
    (p.PromptCredential srt deviceCreds).err = some (traceWrapErr e) ∧
    p.credentialCalls srt deviceCreds
      = [StreamEvent.send (credentialPromptMessage srt deviceCreds) none,
         StreamEvent.recv (Except.error e)] := by
  simp only [credentialPromptMessage] at hsend hrecv
  simp [pwdlessLoginPrompt.PromptCredential, pwdlessLoginPrompt.credentialCalls,
    LoginPasswordlessServer.Send, LoginPasswordlessServer.Recv, hsend, hrecv, hne,
    credentialPromptMessage]

theorem promptCredential_no_selection (srt : SliceSorter CredentialInfo credLess)
    (p : pwdlessLoginPrompt) (deviceCreds : List CredentialInfo) (req : LoginPasswordlessRequest)
    (hne : deviceCreds ≠ [])
    (hsend : p.Stream.sendOutcome p.Stream.trace (credentialPromptMessage srt deviceCreds) = none)
    (hrecv : p.Stream.recvOutcome (p.Stream.trace ++
      [StreamEvent.send (credentialPromptMessage srt deviceCreds) none]) = Except.ok req)
    (hsel : req.GetCredential = none) :
    (p.PromptCredential srt deviceCreds).cred = none ∧
    (p.PromptCredential srt deviceCreds).err
      = some (traceBadParameter "login name must be selected") ∧
    p.credentialCalls srt deviceCreds
      = [StreamEvent.send (credentialPromptMessage srt deviceCreds) none,
         StreamEvent.recv (Except.ok req)] := by
  simp only [credentialPromptMessage] at hsend hrecv
  simp [pwdlessLoginPrompt.PromptCredential, pwdlessLoginPrompt.credentialCalls,
    LoginPasswordlessServer.Send, LoginPasswordlessServer.Recv, hsend, hrecv, hne, hsel,
    credentialPromptMessage]

theorem promptCredential_out_of_range (srt : SliceSorter CredentialInfo credLess)
    (p : pwdlessLoginPrompt) (deviceCreds : List CredentialInfo) (req : LoginPasswordlessRequest)
    (i : Int) (hne : deviceCreds ≠ [])
    (hsend : p.Stream.sendOutcome p.Stream.trace (credentialPromptMessage srt deviceCreds) = none)
    (hrecv : p.Stream.recvOutcome (p.Stream.trace ++
      [StreamEvent.send (credentialPromptMessage srt deviceCreds) none]) = Except.ok req)
    (hsel : req.GetCredential = some { Index := i })
    (hout : i < 0 ∨ (deviceCreds.length : Int) ≤ i) :
    (p.PromptCredential srt deviceCreds).cred = none ∧
    (p.PromptCredential srt deviceCreds).err = some (traceBadParameter "invalid login name") ∧
    p.credentialCalls srt deviceCreds
      = [StreamEvent.send (credentialPromptMessage srt deviceCreds) none,
         StreamEvent.recv (Except.ok req)] := by
  have hlen : ((toApiCredentials (srt.run deviceCreds)).length : Int) = deviceCreds.length := by
    simp [toApiCredentials, srt.length_run]
  have hcond : i < 0 ∨ i > ((toApiCredentials (srt.run deviceCreds)).length : Int) - 1 := by
    omega
  simp only [credentialPromptMessage] at hsend hrecv
  simp [pwdlessLoginPrompt.PromptCredential, pwdlessLoginPrompt.credentialCalls,
    LoginPasswordlessServer.Send, LoginPasswordlessServer.Recv, hsend, hrecv, hne, hsel,
    credentialPromptMessage, hcond]

theorem promptCredential_in_range (srt : SliceSorter CredentialInfo credLess)
    (p : pwdlessLoginPrompt) (deviceCreds : List CredentialInfo) (req : LoginPasswordlessRequest)
    (i : Int) (hne : deviceCreds ≠ [])
    (hsend : p.Stream.sendOutcome p.Stream.trace (credentialPromptMessage srt deviceCreds) = none)
    (hrecv : p.Stream.recvOutcome (p.Stream.trace ++
      [StreamEvent.send (credentialPromptMessage srt deviceCreds) none]) = Except.ok req)
    (hsel : req.GetCredential = some { Index := i })
    (h0 : 0 ≤ i) (hlt : i < (deviceCreds.length : Int)) :
    (p.PromptCredential srt deviceCreds).cred = (srt.run deviceCreds)[i.toNat]? ∧
    (p.PromptCredential srt deviceCreds).err = none ∧
    (p.PromptCredential srt deviceCreds).deviceCreds = srt.run deviceCreds ∧
    p.credentialCalls srt deviceCreds
      = [StreamEvent.send (credentialPromptMessage srt deviceCreds) none,
         StreamEvent.recv (Except.ok req)] := by
  have hlen : ((toApiCredentials (srt.run deviceCreds)).length : Int) = deviceCreds.length := by
    simp [toApiCredentials, srt.length_run]
  have hcond : ¬ (i < 0 ∨ i > ((toApiCredentials (srt.run deviceCreds)).length : Int) - 1) := by
    omega
  have hidx : i.toNat < (srt.run deviceCreds).length := by
    rw [srt.length_run]; omega
  simp only [credentialPromptMessage] at hsend hrecv
  simp [pwdlessLoginPrompt.PromptCredential, pwdlessLoginPrompt.credentialCalls,
    LoginPasswordlessServer.Send, LoginPasswordlessServer.Recv, hsend, hrecv, hne, hsel,
    credentialPromptMessage, hcond, List.getElem?_eq_getElem hidx]

theorem promptCredential_calls_bounded (srt : SliceSorter CredentialInfo credLess)
    (p : pwdlessLoginPrompt) (deviceCreds : List CredentialInfo) :
    (p.credentialCalls srt deviceCreds).countP StreamEvent.isSend ≤ 1 ∧
    (p.credentialCalls srt deviceCreds).countP StreamEvent.isRecv ≤ 1 := by
  by_cases hne : deviceCreds = []
  · subst hne
    simp [pwdlessLoginPrompt.credentialCalls, promptCredential_nil]
  cases hs : p.Stream.sendOutcome p.Stream.trace (credentialPromptMessage srt deviceCreds) with
  | some e =>
    simp [(promptCredential_send_failed srt p deviceCreds e hne hs).2.2, StreamEvent.isSend,
      StreamEvent.isRecv]
  | none =>
    cases hr : p.Stream.recvOutcome (p.Stream.trace ++
        [StreamEvent.send (credentialPromptMessage srt deviceCreds) none]) with
    | error e =>
      simp [(promptCredential_recv_failed srt p deviceCreds e hne hs hr).2.2, StreamEvent.isSend,
        StreamEvent.isRecv]
    | ok req =>
      cases hg : req.GetCredential with
      | none =>
        simp [(promptCredential_no_selection srt p deviceCreds req hne hs hr hg).2.2,
          StreamEvent.isSend, StreamEvent.isRecv]
      | some credRes =>
        obtain ⟨i⟩ := credRes
        by_cases hout : i < 0 ∨ (deviceCreds.length : Int) ≤ i
        · simp [(promptCredential_out_of_range srt p deviceCreds req i hne hs hr hg hout).2.2,
            StreamEvent.isSend, StreamEvent.isRecv]
        · have h0 : 0 ≤ i := by omega
          have hlt : i < (deviceCreds.length : Int) := by omega
          simp [(promptCredential_in_range srt p deviceCreds req i hne hs hr hg h0 hlt).2.2.2,
            StreamEvent.isSend, StreamEvent.isRecv]

theorem promptCredential_returned_only_selected (srt : SliceSorter CredentialInfo credLess)
    (p : pwdlessLoginPrompt) (deviceCreds : List CredentialInfo) (c : CredentialInfo)
    (hc : (p.PromptCredential srt deviceCreds).cred = some c) :
    ∃ (req : LoginPasswordlessRequest) (i : Int),
      StreamEvent.recv (Except.ok req) ∈ p.credentialCalls srt deviceCreds ∧
      req.GetCredential = some { Index := i } ∧ 0 ≤ i ∧ i < (deviceCreds.length : Int) ∧
      (srt.run deviceCreds)[i.toNat]? = some c ∧
      (p.PromptCredential srt deviceCreds).err = none := by
  by_cases hne : deviceCreds = []
  · subst hne
    simp [promptCredential_nil] at hc
  cases hs : p.Stream.sendOutcome p.Stream.trace (credentialPromptMessage srt deviceCreds) with
  | some e =>
    rw [(promptCredential_send_failed srt p deviceCreds e hne hs).1] at hc
    cases hc
  | none =>
    cases hr : p.Stream.recvOutcome (p.Stream.trace ++
        [StreamEvent.send (credentialPromptMessage srt deviceCreds) none]) with
    | error e =>
      rw [(promptCredential_recv_failed srt p deviceCreds e hne hs hr).1] at hc
      cases hc
    | ok req =>
      cases hg : req.GetCredential with
      | none =>
        rw [(promptCredential_no_selection srt p deviceCreds req hne hs hr hg).1] at hc
        cases hc
      | some credRes =>
        obtain ⟨i⟩ := credRes
        by_cases hout : i < 0 ∨ (deviceCreds.length : Int) ≤ i
        · rw [(promptCredential_out_of_range srt p deviceCreds req i hne hs hr hg hout).1] at hc
          cases hc
        · have h0 : 0 ≤ i := by omega
          have hlt : i < (deviceCreds.length : Int) := by omega
          obtain ⟨h1, h2, _, h4⟩ := promptCredential_in_range srt p deviceCreds req i hne hs hr hg h0 hlt
          refine ⟨req, i, ?_, hg, h0, hlt, ?_, h2⟩
          · rw [h4]; simp
          · rw [← h1]; exact hc

theorem promptCredential_received (srt : SliceSorter CredentialInfo credLess)
    (p : pwdlessLoginPrompt) (deviceCreds : List CredentialInfo) (req : LoginPasswordlessRequest)
    (hmem : StreamEvent.recv (Except.ok req) ∈ p.credentialCalls srt deviceCreds) :
    deviceCreds ≠ [] ∧
    p.Stream.sendOutcome p.Stream.trace (credentialPromptMessage srt deviceCreds) = none ∧
    p.Stream.recvOutcome (p.Stream.trace ++
      [StreamEvent.send (credentialPromptMessage srt deviceCreds) none]) = Except.ok req := by
  by_cases hne : deviceCreds = []
  · subst hne
    simp [pwdlessLoginPrompt.credentialCalls, promptCredential_nil] at hmem
  cases hs : p.Stream.sendOutcome p.Stream.trace (credentialPromptMessage srt deviceCreds) with
  | some e =>
    rw [(promptCredential_send_failed srt p deviceCreds e hne hs).2.2] at hmem
    simp at hmem
  | none =>
    refine ⟨hne, rfl, ?_⟩
    cases hr : p.Stream.recvOutcome (p.Stream.trace ++
        [StreamEvent.send (credentialPromptMessage srt deviceCreds) none]) with
    | error e =>
      rw [(promptCredential_recv_failed srt p deviceCreds e hne hs hr).2.2] at hmem
      simp at hmem
    | ok req' =>
      cases hg : req'.GetCredential with
      | none =>
        rw [(promptCredential_no_selection srt p deviceCreds req' hne hs hr hg).2.2] at hmem
        simp at hmem
        rw [hmem]
      | some credRes =>
        obtain ⟨i⟩ := credRes
        by_cases hout : i < 0 ∨ (deviceCreds.length : Int) ≤ i
        · rw [(promptCredential_out_of_range srt p deviceCreds req' i hne hs hr hg hout).2.2]
            at hmem
          simp at hmem
          rw [hmem]
        · have h0 : 0 ≤ i := by omega
          have hlt : i < (deviceCreds.length : Int) := by omega
          rw [(promptCredential_in_range srt p deviceCreds req' i hne hs hr hg h0 hlt).2.2.2]
            at hmem
          simp at hmem
          rw [hmem]

/-! ## The claims on the prompt relay -/

/-- C1. For a non-empty candidate list, a successful send and a reply whose selection
index `i` satisfies `0 ≤ i < len(candidates)`, `PromptCredential` sorts the candidates
(the presented order is a permutation of the input, ascending by username), makes one
`Send`, of the credential-list message whose entry `k` is the username of sorted
candidate `k`, and one `Recv`, and returns with no error the candidate at position `i` of
the sorted list, which is one of the candidates offered. -/
theorem promptCredential_presents_sorted_returns_selected
    (srt : SliceSorter CredentialInfo credLess) (p : pwdlessLoginPrompt)
    (deviceCreds : List CredentialInfo) (i : Int)
    (hne : deviceCreds ≠ [])
    (hsend : p.Stream.sendOutcome p.Stream.trace (credentialPromptMessage srt deviceCreds) = none)
    (hrecv : p.Stream.recvOutcome (p.Stream.trace ++
      [StreamEvent.send (credentialPromptMessage srt deviceCreds) none])
        = Except.ok (LoginPasswordlessRequest.credential (some { Index := i })))
    (h0 : 0 ≤ i) (hlt : i < (deviceCreds.length : Int)) :
    (srt.run deviceCreds).Perm deviceCreds ∧
    (srt.run deviceCreds).Pairwise (fun a b => a.User.Name ≤ b.User.Name) ∧
    sentMessages (p.credentialCalls srt deviceCreds)
      = [{ Prompt := PasswordlessPrompt.credential
           Credentials := toApiCredentials (srt.run deviceCreds) }] ∧
    (p.credentialCalls srt deviceCreds).countP StreamEvent.isSend = 1 ∧
    (∀ k : Nat, ((toApiCredentials (srt.run deviceCreds))[k]?).map ApiCredentialInfo.Username
      = ((srt.run deviceCreds)[k]?).map (fun c => c.User.Name)) ∧
    (p.PromptCredential srt deviceCreds).err = none ∧
    (p.PromptCredential srt deviceCreds).cred = (srt.run deviceCreds)[i.toNat]? ∧
    (∃ c, (p.PromptCredential srt deviceCreds).cred = some c ∧ c ∈ deviceCreds) := by
  obtain ⟨h1, h2, _, h4⟩ := promptCredential_in_range srt p deviceCreds
    (LoginPasswordlessRequest.credential (some { Index := i })) i hne hsend hrecv rfl h0 hlt
  have hidx : i.toNat < (srt.run deviceCreds).length := by
    rw [srt.length_run]; omega
  refine ⟨srt.perm deviceCreds, sorted_by_username srt deviceCreds, ?_, ?_,
    toApiCredentials_getElem? _, h2, h1, ?_⟩
  · rw [h4]; rfl
  · rw [h4]; rfl
  · refine ⟨(srt.run deviceCreds)[i.toNat], ?_, ?_⟩
    · rw [h1, List.getElem?_eq_getElem hidx]
    · exact (srt.perm deviceCreds).subset (List.getElem_mem _)

/-- C1, on the candidates `[bob, alice]` and the reply index `0`: the list is presented
as `[alice, bob]` and `alice` is returned. -/
theorem promptCredential_presents_sorted_returns_selected_witness :
    sentMessages ((replyingPrompt (LoginPasswordlessRequest.credential
        (some { Index := 0 }))).credentialCalls insertionSorter [credOf "bob", credOf "alice"])
      = [{ Prompt := PasswordlessPrompt.credential
           Credentials := [{ Username := "alice" }, { Username := "bob" }] }] ∧
    ((replyingPrompt (LoginPasswordlessRequest.credential
        (some { Index := 0 }))).PromptCredential insertionSorter
          [credOf "bob", credOf "alice"]).cred = some (credOf "alice") ∧
    ((replyingPrompt (LoginPasswordlessRequest.credential
        (some { Index := 0 }))).PromptCredential insertionSorter
          [credOf "bob", credOf "alice"]).err = none := by
  have h := promptCredential_presents_sorted_returns_selected insertionSorter
    (replyingPrompt (LoginPasswordlessRequest.credential (some { Index := 0 })))
    [credOf "bob", credOf "alice"] 0 (by decide) rfl rfl (by decide) (by decide)
  refine ⟨?_, ?_, h.2.2.2.2.2.1⟩
  · rw [h.2.2.1]; decide
  · rw [h.2.2.2.2.2.2.1]; decide

/-- C2, as stated, fails on the empty candidate list: every index is outside `[0, 0)`,
and on a stream whose reply carries the index `0` the call returns the error of
`errors.New`, which is not a `BadParameter` error, without reading the reply. -/
theorem promptCredential_empty_list_index_not_validated :
    ((0 : Int) < 0 ∨ (([] : List CredentialInfo).length : Int) ≤ 0) ∧
    ((replyingPrompt (LoginPasswordlessRequest.credential
        (some { Index := 0 }))).PromptCredential insertionSorter []).err
      = some (errorsNew "attempted to prompt credential with empty credentials") ∧
    ((replyingPrompt (LoginPasswordlessRequest.credential
        (some { Index := 0 }))).PromptCredential insertionSorter []).err.map traceIsBadParameter
      = some false ∧
    (replyingPrompt (LoginPasswordlessRequest.credential
        (some { Index := 0 }))).credentialCalls insertionSorter [] = [] := by
  decide

/-- C2, amended. For every non-empty candidate list, a successful send and a reply
carrying a selection index `i` with `i < 0` or `i ≥ len(candidates)`, `PromptCredential`
fails with the `BadParameter` error "invalid login name" and returns no credential. For
every candidate list, a credential is returned only when a reply was received whose
index addresses one element of the presented (sorted) list, and it is that element,
returned with no error. For the empty list the call returns no credential and reads no
reply. -/
theorem promptCredential_index_out_of_range
    (srt : SliceSorter CredentialInfo credLess) (p : pwdlessLoginPrompt)
    (deviceCreds : List CredentialInfo) (i : Int)
    (hne : deviceCreds ≠ [])
    (hsend : p.Stream.sendOutcome p.Stream.trace (credentialPromptMessage srt deviceCreds) = none)
    (hrecv : p.Stream.recvOutcome (p.Stream.trace ++
      [StreamEvent.send (credentialPromptMessage srt deviceCreds) none])
        = Except.ok (LoginPasswordlessRequest.credential (some { Index := i })))
    (hout : i < 0 ∨ (deviceCreds.length : Int) ≤ i) :
    ((p.PromptCredential srt deviceCreds).cred = none ∧
      (p.PromptCredential srt deviceCreds).err = some (traceBadParameter "invalid login name") ∧
      (p.PromptCredential srt deviceCreds).err.map traceIsBadParameter = some true) ∧
    (∀ (srt' : SliceSorter CredentialInfo credLess) (p' : pwdlessLoginPrompt)
      (creds' : List CredentialInfo) (c : CredentialInfo),
      (p'.PromptCredential srt' creds').cred = some c →
        ∃ (req : LoginPasswordlessRequest) (j : Int),
          StreamEvent.recv (Except.ok req) ∈ p'.credentialCalls srt' creds' ∧
          req.GetCredential = some { Index := j } ∧ 0 ≤ j ∧ j < (creds'.length : Int) ∧
          (srt'.run creds')[j.toNat]? = some c ∧
          (p'.PromptCredential srt' creds').err = none) ∧
    (∀ (srt' : SliceSorter CredentialInfo credLess) (p' : pwdlessLoginPrompt),
      (p'.PromptCredential srt' []).cred = none ∧ p'.credentialCalls srt' [] = []) := by
  obtain ⟨h1, h2, _⟩ := promptCredential_out_of_range srt p deviceCreds
    (LoginPasswordlessRequest.credential (some { Index := i })) i hne hsend hrecv rfl hout
  refine ⟨⟨h1, h2, ?_⟩, ?_, ?_⟩
  · rw [h2]; rfl
  · intro srt' p' creds' c hc
    exact promptCredential_returned_only_selected srt' p' creds' c hc
  · intro srt' p'
    simp [pwdlessLoginPrompt.credentialCalls, promptCredential_nil]

/-- C2, amended, on the candidates `[bob, alice]` and the reply indices `2` and `-1`. -/
theorem promptCredential_index_out_of_range_witness :
    (((replyingPrompt (LoginPasswordlessRequest.credential
        (some { Index := 2 }))).PromptCredential insertionSorter
          [credOf "bob", credOf "alice"]).cred = none ∧
      ((replyingPrompt (LoginPasswordlessRequest.credential
        (some { Index := 2 }))).PromptCredential insertionSorter
          [credOf "bob", credOf "alice"]).err = some (traceBadParameter "invalid login name")) ∧
    ((replyingPrompt (LoginPasswordlessRequest.credential
        (some { Index := -1 }))).PromptCredential insertionSorter
          [credOf "bob", credOf "alice"]).err = some (traceBadParameter "invalid login name") :=
  have h := promptCredential_index_out_of_range insertionSorter
    (replyingPrompt (LoginPasswordlessRequest.credential (some { Index := 2 })))
    [credOf "bob", credOf "alice"] 2 (by decide) rfl rfl (by decide)
  have h' := promptCredential_index_out_of_range insertionSorter
    (replyingPrompt (LoginPasswordlessRequest.credential (some { Index := -1 })))
    [credOf "bob", credOf "alice"] (-1) (by decide) rfl rfl (by decide)
  ⟨⟨h.1.1, h.1.2.1⟩, h'.1.2.1⟩

/-- C3. For every reply received by `PromptPIN` after a successful send: a reply with
no PIN field, or with an empty PIN string, makes `PromptPIN` return the empty string and
the `BadParameter` error "pin is required"; a reply with a non-empty PIN `s` makes it
return exactly `s` and no error. -/
theorem promptPIN_reply_validated (p : pwdlessLoginPrompt) (req : LoginPasswordlessRequest)
    (hsend : p.Stream.sendOutcome p.Stream.trace pinPromptMessage = none)
    (hrecv : p.Stream.recvOutcome (p.Stream.trace ++ [StreamEvent.send pinPromptMessage none])
      = Except.ok req) :
    ((req.GetPin = none ∨ req.GetPin = some { Pin := "" }) →
      p.PromptPIN.1 = ("", some (traceBadParameter "pin is required")) ∧
      p.PromptPIN.1.2.map traceIsBadParameter = some true) ∧
    (∀ s : String, s ≠ "" → req.GetPin = some { Pin := s } → p.PromptPIN.1 = (s, none)) := by
  have h := (promptPIN_received p req hsend hrecv).1
  refine ⟨?_, ?_⟩
  · rintro (hg | hg) <;> rw [h, hg] <;> simp <;> rfl
  · intro s hs hg
    rw [h, hg]
    simp [hs]

/-- C3, on the replies `pin = "1234"`, `pin = ""` and a reply with no PIN field. -/
theorem promptPIN_reply_validated_witness :
    (replyingPrompt (LoginPasswordlessRequest.pin (some { Pin := "1234" }))).PromptPIN.1
      = ("1234", none) ∧
    (replyingPrompt (LoginPasswordlessRequest.pin (some { Pin := "" }))).PromptPIN.1
      = ("", some (traceBadParameter "pin is required")) ∧
    (replyingPrompt LoginPasswordlessRequest.unset).PromptPIN.1
      = ("", some (traceBadParameter "pin is required")) :=
  ⟨(promptPIN_reply_validated
      (replyingPrompt (LoginPasswordlessRequest.pin (some { Pin := "1234" })))
      (LoginPasswordlessRequest.pin (some { Pin := "1234" })) rfl rfl).2 "1234" (by decide) rfl,
   ((promptPIN_reply_validated
      (replyingPrompt (LoginPasswordlessRequest.pin (some { Pin := "" })))
      (LoginPasswordlessRequest.pin (some { Pin := "" })) rfl rfl).1 (Or.inr rfl)).1,
   ((promptPIN_reply_validated (replyingPrompt LoginPasswordlessRequest.unset)
      LoginPasswordlessRequest.unset rfl rfl).1 (Or.inl rfl)).1⟩

/-- C4. `PromptCredential` called with zero candidates returns an error and no
credential, and makes no `Send` and no `Recv`: the relay, and with it the trace of the
stream, is the one before the call. -/
theorem promptCredential_empty_no_traffic (srt : SliceSorter CredentialInfo credLess)
    (p : pwdlessLoginPrompt) :
    (p.PromptCredential srt []).cred = none ∧
    (p.PromptCredential srt []).err.isSome = true ∧
    (p.PromptCredential srt []).p = p ∧
    (p.PromptCredential srt []).p.Stream.trace = p.Stream.trace ∧
    p.credentialCalls srt [] = [] := by
  simp [pwdlessLoginPrompt.credentialCalls, promptCredential_nil]

/-- C4, on a relay whose stream has a reply at hand. -/
theorem promptCredential_empty_no_traffic_witness :
    ((replyingPrompt LoginPasswordlessRequest.init).PromptCredential insertionSorter []).cred
      = none ∧
    ((replyingPrompt LoginPasswordlessRequest.init).PromptCredential
      insertionSorter []).p.Stream.trace = [] :=
  ⟨(promptCredential_empty_no_traffic insertionSorter
      (replyingPrompt LoginPasswordlessRequest.init)).1,
   (promptCredential_empty_no_traffic insertionSorter
      (replyingPrompt LoginPasswordlessRequest.init)).2.2.2.1⟩

/-- C8. In `PromptPIN` and in `PromptCredential` on a non-empty candidate list, a
failure of the stream is handed back wrapped and with its kind unchanged: when `Send`
fails with `e` the call returns `trace.Wrap(e)` and no value, and no `Recv` is made; when
`Recv` fails with `e` (a cancellation error included) the call returns `trace.Wrap(e)` and
no value. `trace.Wrap(e)` has the kind of `e`, so it is a `BadParameter` error only if `e`
is one. No call makes more than one `Send` or more than one `Recv`. -/
theorem prompt_stream_failure_propagated (srt : SliceSorter CredentialInfo credLess)
    (p : pwdlessLoginPrompt) (deviceCreds : List CredentialInfo) (e : GoError)
    (hne : deviceCreds ≠ []) :
    (p.Stream.sendOutcome p.Stream.trace pinPromptMessage = some e →
      p.PromptPIN.1 = ("", some (traceWrapErr e)) ∧
      p.pinCalls = [StreamEvent.send pinPromptMessage (some e)]) ∧
    (p.Stream.sendOutcome p.Stream.trace pinPromptMessage = none →
      p.Stream.recvOutcome (p.Stream.trace ++ [StreamEvent.send pinPromptMessage none])
        = Except.error e →
      p.PromptPIN.1 = ("", some (traceWrapErr e)) ∧
      p.pinCalls = [StreamEvent.send pinPromptMessage none, StreamEvent.recv (Except.error e)]) ∧
    (p.Stream.sendOutcome p.Stream.trace (credentialPromptMessage srt deviceCreds) = some e →
      (p.PromptCredential srt deviceCreds).cred = none ∧
      (p.PromptCredential srt deviceCreds).err = some (traceWrapErr e) ∧
      p.credentialCalls srt deviceCreds
        = [StreamEvent.send (credentialPromptMessage srt deviceCreds) (some e)]) ∧
    (p.Stream.sendOutcome p.Stream.trace (credentialPromptMessage srt deviceCreds) = none →
      p.Stream.recvOutcome (p.Stream.trace ++
        [StreamEvent.send (credentialPromptMessage srt deviceCreds) none]) = Except.error e →
      (p.PromptCredential srt deviceCreds).cred = none ∧
      (p.PromptCredential srt deviceCreds).err = some (traceWrapErr e) ∧
      p.credentialCalls srt deviceCreds
        = [StreamEvent.send (credentialPromptMessage srt deviceCreds) none,
           StreamEvent.recv (Except.error e)]) ∧
    ((traceWrapErr e).kind = e.kind ∧ (traceWrapErr e).msg = e.msg ∧
      traceIsBadParameter (traceWrapErr e) = traceIsBadParameter e ∧
      (e.kind = ErrKind.canceled ∨ e.kind = ErrKind.deadlineExceeded →
        traceIsBadParameter (traceWrapErr e) = false)) ∧
    (p.pinCalls.countP StreamEvent.isSend ≤ 1 ∧ p.pinCalls.countP StreamEvent.isRecv ≤ 1 ∧
      (p.credentialCalls srt deviceCreds).countP StreamEvent.isSend ≤ 1 ∧
      (p.credentialCalls srt deviceCreds).countP StreamEvent.isRecv ≤ 1) := by
  refine ⟨promptPIN_send_failed p e, promptPIN_recv_failed p e,
    promptCredential_send_failed srt p deviceCreds e hne,
    promptCredential_recv_failed srt p deviceCreds e hne, ⟨rfl, rfl, rfl, ?_⟩, ?_⟩
  · rintro (hk | hk) <;> simp [traceIsBadParameter, traceWrapErr, hk]
  · exact ⟨le_of_eq (promptPIN_calls_bounded p).1, (promptPIN_calls_bounded p).2,
      promptCredential_calls_bounded srt p deviceCreds⟩

/-- C8, on a stream whose `Recv` fails with `context.Canceled`: both prompts return the
wrapped cancellation error, which is not a `BadParameter` error. -/
theorem prompt_stream_failure_propagated_witness :
    (recvFailingPrompt contextCanceled).PromptPIN.1 = ("", some (traceWrapErr contextCanceled)) ∧
    ((recvFailingPrompt contextCanceled).PromptCredential insertionSorter [credOf "bob"]).err
      = some (traceWrapErr contextCanceled) ∧
    traceIsBadParameter (traceWrapErr contextCanceled) = false :=
  have h := prompt_stream_failure_propagated insertionSorter (recvFailingPrompt contextCanceled)
    [credOf "bob"] contextCanceled (by decide)
  ⟨(h.2.1 rfl rfl).1, (h.2.2.2.1 rfl rfl).2.1, h.2.2.2.2.1.2.2.2 (Or.inl rfl)⟩

/-- C9. `PromptTouch` makes one `Send`, of the touch-request message, and no `Recv`. It
returns the wrapped result of that `Send`: no error when the `Send` succeeds, the send
error when it fails. The callback it returns is `ackTouch`, which returns no error and
leaves the stream as it is, making no `Send` and no `Recv`. -/
theorem promptTouch_sends_once_no_reply (p : pwdlessLoginPrompt) :
    p.touchCalls = [StreamEvent.send touchPromptMessage
      (p.Stream.sendOutcome p.Stream.trace touchPromptMessage)] ∧
    p.touchCalls.countP StreamEvent.isSend = 1 ∧
    p.touchCalls.countP StreamEvent.isRecv = 0 ∧
    (p.Stream.sendOutcome p.Stream.trace touchPromptMessage = none →
      p.PromptTouch.1.2 = none ∧
      ∀ q : pwdlessLoginPrompt,
        (p.PromptTouch.1.1 q).1 = none ∧ (p.PromptTouch.1.1 q).2.Stream = q.Stream) ∧
    (∀ e : GoError, p.Stream.sendOutcome p.Stream.trace touchPromptMessage = some e →
      p.PromptTouch.1.2 = some (traceWrapErr e)) := by
  refine ⟨?_, ?_, ?_, ?_, ?_⟩
  · simp [pwdlessLoginPrompt.touchCalls, pwdlessLoginPrompt.PromptTouch,
      LoginPasswordlessServer.Send, touchPromptMessage]
  · simp [pwdlessLoginPrompt.touchCalls, pwdlessLoginPrompt.PromptTouch,
      LoginPasswordlessServer.Send, StreamEvent.isSend]
  · simp [pwdlessLoginPrompt.touchCalls, pwdlessLoginPrompt.PromptTouch,
      LoginPasswordlessServer.Send, StreamEvent.isRecv]
  · intro h
    simp only [touchPromptMessage] at h
    refine ⟨?_, fun q => ⟨rfl, rfl⟩⟩
    simp [pwdlessLoginPrompt.PromptTouch, LoginPasswordlessServer.Send, h, traceWrap]
  · intro e h
    simp only [touchPromptMessage] at h
    simp [pwdlessLoginPrompt.PromptTouch, LoginPasswordlessServer.Send, h, traceWrap]

/-- C9, on a stream whose `Send` succeeds and on one whose `Send` fails. -/
theorem promptTouch_sends_once_no_reply_witness :
    (replyingPrompt LoginPasswordlessRequest.unset).PromptTouch.1.2 = none ∧
    (replyingPrompt LoginPasswordlessRequest.unset).touchCalls
      = [StreamEvent.send touchPromptMessage none] ∧
    (sendFailingPrompt someFailure).PromptTouch.1.2 = some (traceWrapErr someFailure) :=
  ⟨((promptTouch_sends_once_no_reply
      (replyingPrompt LoginPasswordlessRequest.unset)).2.2.2.1 rfl).1,
   (promptTouch_sends_once_no_reply (replyingPrompt LoginPasswordlessRequest.unset)).1,
   (promptTouch_sends_once_no_reply (sendFailingPrompt someFailure)).2.2.2.2 someFailure rfl⟩

/-- C10, as stated, fails: the error `PromptCredential` returns for an empty candidate
list is not a `BadParameter` error, while the error of `PromptPIN` for an empty PIN and
the error of `PromptCredential` for an out-of-range index are. -/
theorem promptCredential_empty_error_kind_differs :
    ((replyingPrompt LoginPasswordlessRequest.unset).PromptCredential
      insertionSorter []).err.map GoError.kind = some ErrKind.unclassified ∧
    (replyingPrompt (LoginPasswordlessRequest.pin (some { Pin := "" }))).PromptPIN.1.2.map
      GoError.kind = some ErrKind.badParameter ∧
    ((replyingPrompt (LoginPasswordlessRequest.credential
      (some { Index := 5 }))).PromptCredential insertionSorter [credOf "bob"]).err.map
        GoError.kind = some ErrKind.badParameter := by
  decide

/-- C10, amended. `PromptCredential` invoked with an empty candidate list reports the
error `errors.New("attempted to prompt credential with empty credentials")`, which
carries no classification and is not a `BadParameter` error; the errors returned for an
empty PIN and for an out-of-range selection index are `BadParameter` errors. -/
theorem promptCredential_empty_error_unclassified (srt : SliceSorter CredentialInfo credLess)
    (p : pwdlessLoginPrompt) :
    (p.PromptCredential srt []).err
      = some (errorsNew "attempted to prompt credential with empty credentials") ∧
    (p.PromptCredential srt []).err.map GoError.kind = some ErrKind.unclassified ∧
    (p.PromptCredential srt []).err.map traceIsBadParameter = some false ∧
    (∀ (q : pwdlessLoginPrompt) (req : LoginPasswordlessRequest),
      q.Stream.sendOutcome q.Stream.trace pinPromptMessage = none →
      q.Stream.recvOutcome (q.Stream.trace ++ [StreamEvent.send pinPromptMessage none])
        = Except.ok req →
      req.GetPin = some { Pin := "" } →
      q.PromptPIN.1.2.map traceIsBadParameter = some true) ∧
    (∀ (q : pwdlessLoginPrompt) (deviceCreds : List CredentialInfo)
      (req : LoginPasswordlessRequest) (i : Int), deviceCreds ≠ [] →
      q.Stream.sendOutcome q.Stream.trace (credentialPromptMessage srt deviceCreds) = none →
      q.Stream.recvOutcome (q.Stream.trace ++
        [StreamEvent.send (credentialPromptMessage srt deviceCreds) none]) = Except.ok req →
      req.GetCredential = some { Index := i } →
      (i < 0 ∨ (deviceCreds.length : Int) ≤ i) →
      (q.PromptCredential srt deviceCreds).err.map traceIsBadParameter = some true) := by
  refine ⟨?_, ?_, ?_, ?_, ?_⟩
  · rw [promptCredential_nil]
  · rw [promptCredential_nil]; rfl
  · rw [promptCredential_nil]; rfl
  · intro q req hs hr hg
    rw [(promptPIN_received q req hs hr).1, hg]
    rfl
  · intro q deviceCreds req i hne hs hr hg hout
    rw [(promptCredential_out_of_range srt q deviceCreds req i hne hs hr hg hout).2.1]
    rfl

/-- C10, amended, on a relay whose stream has a reply at hand. -/
theorem promptCredential_empty_error_unclassified_witness :
    ((replyingPrompt LoginPasswordlessRequest.unset).PromptCredential insertionSorter []).err
      = some (errorsNew "attempted to prompt credential with empty credentials") ∧
    (replyingPrompt (LoginPasswordlessRequest.pin (some { Pin := "" }))).PromptPIN.1.2.map
      traceIsBadParameter = some true :=
  ⟨(promptCredential_empty_error_unclassified insertionSorter
      (replyingPrompt LoginPasswordlessRequest.unset)).1,
   (promptCredential_empty_error_unclassified insertionSorter
      (replyingPrompt LoginPasswordlessRequest.unset)).2.2.2.1
        (replyingPrompt (LoginPasswordlessRequest.pin (some { Pin := "" })))
        (LoginPasswordlessRequest.pin (some { Pin := "" })) rfl rfl rfl⟩

/-! ## `login`, path by path -/

/-- The six ways a run of `login` can go: the calls it makes, what it returns and the
cached status it leaves. -/
theorem login_paths {F : Type} (c : Cluster F) (f : F) :
    (∃ e, c.loginCalls f = [ClientEvent.sshLogin (Except.error e)] ∧
      (c.login f).1 = some (traceWrapErr e) ∧ (c.login f).2.status = c.status) ∨
    (∃ key e, c.loginCalls f =
        [ClientEvent.sshLogin (Except.ok key), ClientEvent.updateUsername key.Username,
         ClientEvent.connectToRootCluster key (some e)] ∧
      (c.login f).1 = some (traceWrapErr e) ∧ (c.login f).2.status = c.status) ∨
    (∃ key e, c.loginCalls f =
        [ClientEvent.sshLogin (Except.ok key), ClientEvent.updateUsername key.Username,
         ClientEvent.connectToRootCluster key none, ClientEvent.attemptDeviceLogin key (some e),
         ClientEvent.rootAuthClientClose, ClientEvent.proxyClientClose] ∧
      (c.login f).1 = some (traceWrapErr e) ∧ (c.login f).2.status = c.status) ∨
    (∃ key e, c.loginCalls f =
        [ClientEvent.sshLogin (Except.ok key), ClientEvent.updateUsername key.Username,
         ClientEvent.connectToRootCluster key none, ClientEvent.attemptDeviceLogin key none,
         ClientEvent.saveProfile true (some e),
         ClientEvent.rootAuthClientClose, ClientEvent.proxyClientClose] ∧
      (c.login f).1 = some (traceWrapErr e) ∧ (c.login f).2.status = c.status) ∨
    (∃ key e, c.loginCalls f =
        [ClientEvent.sshLogin (Except.ok key), ClientEvent.updateUsername key.Username,
         ClientEvent.connectToRootCluster key none, ClientEvent.attemptDeviceLogin key none,
         ClientEvent.saveProfile true none, ClientEvent.profileStatus (Except.error e),
         ClientEvent.rootAuthClientClose, ClientEvent.proxyClientClose] ∧
      (c.login f).1 = some (traceWrapErr e) ∧ (c.login f).2.status = c.status) ∨
    (∃ key status, c.loginCalls f =
        [ClientEvent.sshLogin (Except.ok key), ClientEvent.updateUsername key.Username,
         ClientEvent.connectToRootCluster key none, ClientEvent.attemptDeviceLogin key none,
         ClientEvent.saveProfile true none, ClientEvent.profileStatus (Except.ok status),
         ClientEvent.rootAuthClientClose, ClientEvent.proxyClientClose] ∧
      (c.login f).1 = none ∧ (c.login f).2.status = status) := by
  cases h1 : c.clusterClient.sshLoginOutcome c.clusterClient.calls f with
  | error e =>
    left
    refine ⟨e, ?_⟩
    simp [Cluster.loginCalls, Cluster.login, TeleportClient.SSHLogin, TeleportClient.record, h1]
  | ok key =>
    right
    cases h2 : c.clusterClient.connectOutcome
        (c.clusterClient.calls ++ [ClientEvent.sshLogin (Except.ok key),
          ClientEvent.updateUsername key.Username]) key with
    | some e =>
      left
      refine ⟨key, e, ?_⟩
      simp [Cluster.loginCalls, Cluster.login, TeleportClient.SSHLogin, TeleportClient.record,
        TeleportClient.UpdateUsername, TeleportClient.ConnectToRootCluster, h1, h2]
    | none =>
      right
      cases h3 : c.clusterClient.deviceLoginOutcome
          (c.clusterClient.calls ++ [ClientEvent.sshLogin (Except.ok key),
            ClientEvent.updateUsername key.Username,
            ClientEvent.connectToRootCluster key none]) key with
      | some e =>
        left
        refine ⟨key, e, ?_⟩
        simp [Cluster.loginCalls, Cluster.login, Cluster.loginConnected,
          Cluster.closeRootClusterClients, TeleportClient.SSHLogin, TeleportClient.record,
          TeleportClient.UpdateUsername, TeleportClient.ConnectToRootCluster,
          TeleportClient.AttemptDeviceLogin, h1, h2, h3]
      | none =>
        right
        cases h4 : c.clusterClient.saveProfileOutcome
            (c.clusterClient.calls ++ [ClientEvent.sshLogin (Except.ok key),
              ClientEvent.updateUsername key.Username,
              ClientEvent.connectToRootCluster key none,
              ClientEvent.attemptDeviceLogin key none]) true with
        | some e =>
          left
          refine ⟨key, e, ?_⟩
          simp [Cluster.loginCalls, Cluster.login, Cluster.loginConnected,
            Cluster.closeRootClusterClients, TeleportClient.SSHLogin, TeleportClient.record,
            TeleportClient.UpdateUsername, TeleportClient.ConnectToRootCluster,
            TeleportClient.AttemptDeviceLogin, TeleportClient.SaveProfile, h1, h2, h3, h4]
        | none =>
          right
          cases h5 : c.clusterClient.profileStatusOutcome
              (c.clusterClient.calls ++ [ClientEvent.sshLogin (Except.ok key),
                ClientEvent.updateUsername key.Username,
                ClientEvent.connectToRootCluster key none,
                ClientEvent.attemptDeviceLogin key none,
                ClientEvent.saveProfile true none]) with
          | error e =>
            left
            refine ⟨key, e, ?_⟩
            simp [Cluster.loginCalls, Cluster.login, Cluster.loginConnected,
              Cluster.closeRootClusterClients, TeleportClient.SSHLogin, TeleportClient.record,
              TeleportClient.UpdateUsername, TeleportClient.ConnectToRootCluster,
              TeleportClient.AttemptDeviceLogin, TeleportClient.SaveProfile,
              TeleportClient.ProfileStatus, h1, h2, h3, h4, h5]
          | ok status =>
            right
            refine ⟨key, status, ?_⟩
            simp [Cluster.loginCalls, Cluster.login, Cluster.loginConnected,
              Cluster.closeRootClusterClients, TeleportClient.SSHLogin, TeleportClient.record,
              TeleportClient.UpdateUsername, TeleportClient.ConnectToRootCluster,
              TeleportClient.AttemptDeviceLogin, TeleportClient.SaveProfile,
              TeleportClient.ProfileStatus, h1, h2, h3, h4, h5]

/-- The calls of a run of `login` are appended to the history of the client. -/
theorem login_calls_append {F : Type} (c : Cluster F) (f : F) :
    (c.login f).2.clusterClient.calls = c.clusterClient.calls ++ c.loginCalls f := by
  cases h1 : c.clusterClient.sshLoginOutcome c.clusterClient.calls f with
  | error e =>
    simp [Cluster.loginCalls, Cluster.login, TeleportClient.SSHLogin, TeleportClient.record, h1]
  | ok key =>
    cases h2 : c.clusterClient.connectOutcome
        (c.clusterClient.calls ++ [ClientEvent.sshLogin (Except.ok key),
          ClientEvent.updateUsername key.Username]) key with
    | some e =>
      simp [Cluster.loginCalls, Cluster.login, TeleportClient.SSHLogin, TeleportClient.record,
        TeleportClient.UpdateUsername, TeleportClient.ConnectToRootCluster, h1, h2]
    | none =>
      cases h3 : c.clusterClient.deviceLoginOutcome
          (c.clusterClient.calls ++ [ClientEvent.sshLogin (Except.ok key),
            ClientEvent.updateUsername key.Username,
            ClientEvent.connectToRootCluster key none]) key with
      | some e =>
        simp [Cluster.loginCalls, Cluster.login, Cluster.loginConnected,
          Cluster.closeRootClusterClients, TeleportClient.SSHLogin, TeleportClient.record,
          TeleportClient.UpdateUsername, TeleportClient.ConnectToRootCluster,
          TeleportClient.AttemptDeviceLogin, h1, h2, h3]
      | none =>
        cases h4 : c.clusterClient.saveProfileOutcome
            (c.clusterClient.calls ++ [ClientEvent.sshLogin (Except.ok key),
              ClientEvent.updateUsername key.Username,
              ClientEvent.connectToRootCluster key none,
              ClientEvent.attemptDeviceLogin key none]) true with
        | some e =>
          simp [Cluster.loginCalls, Cluster.login, Cluster.loginConnected,
            Cluster.closeRootClusterClients, TeleportClient.SSHLogin, TeleportClient.record,
            TeleportClient.UpdateUsername, TeleportClient.ConnectToRootCluster,
            TeleportClient.AttemptDeviceLogin, TeleportClient.SaveProfile, h1, h2, h3, h4]
        | none =>
          cases h5 : c.clusterClient.profileStatusOutcome
              (c.clusterClient.calls ++ [ClientEvent.sshLogin (Except.ok key),
                ClientEvent.updateUsername key.Username,
                ClientEvent.connectToRootCluster key none,
                ClientEvent.attemptDeviceLogin key none,
                ClientEvent.saveProfile true none]) with
          | error e =>
            simp [Cluster.loginCalls, Cluster.login, Cluster.loginConnected,
              Cluster.closeRootClusterClients, TeleportClient.SSHLogin, TeleportClient.record,
              TeleportClient.UpdateUsername, TeleportClient.ConnectToRootCluster,
              TeleportClient.AttemptDeviceLogin, TeleportClient.SaveProfile,
              TeleportClient.ProfileStatus, h1, h2, h3, h4, h5]
          | ok status =>
            simp [Cluster.loginCalls, Cluster.login, Cluster.loginConnected,
              Cluster.closeRootClusterClients, TeleportClient.SSHLogin, TeleportClient.record,
              TeleportClient.UpdateUsername, TeleportClient.ConnectToRootCluster,
              TeleportClient.AttemptDeviceLogin, TeleportClient.SaveProfile,
              TeleportClient.ProfileStatus, h1, h2, h3, h4, h5]

/-- The run of `login` in which every collaborator call succeeds. -/
theorem login_all_succeed {F : Type} (c : Cluster F) (f : F) (key : KeyRing)
    (status : ProfileStatus)
    (h1 : c.clusterClient.sshLoginOutcome c.clusterClient.calls f = Except.ok key)
    (h2 : c.clusterClient.connectOutcome
      (c.clusterClient.calls ++ [ClientEvent.sshLogin (Except.ok key),
        ClientEvent.updateUsername key.Username]) key = none)
    (h3 : c.clusterClient.deviceLoginOutcome
      (c.clusterClient.calls ++ [ClientEvent.sshLogin (Except.ok key),
        ClientEvent.updateUsername key.Username,
        ClientEvent.connectToRootCluster key none]) key = none)
    (h4 : c.clusterClient.saveProfileOutcome
      (c.clusterClient.calls ++ [ClientEvent.sshLogin (Except.ok key),
        ClientEvent.updateUsername key.Username,
        ClientEvent.connectToRootCluster key none,
        ClientEvent.attemptDeviceLogin key none]) true = none)
    (h5 : c.clusterClient.profileStatusOutcome
      (c.clusterClient.calls ++ [ClientEvent.sshLogin (Except.ok key),
        ClientEvent.updateUsername key.Username,
        ClientEvent.connectToRootCluster key none,
        ClientEvent.attemptDeviceLogin key none,
        ClientEvent.saveProfile true none]) = Except.ok status) :
    (c.login f).1 = none ∧ (c.login f).2.status = status ∧
    c.loginCalls f =
      [ClientEvent.sshLogin (Except.ok key), ClientEvent.updateUsername key.Username,
       ClientEvent.connectToRootCluster key none, ClientEvent.attemptDeviceLogin key none,
       ClientEvent.saveProfile true none, ClientEvent.profileStatus (Except.ok status),
       ClientEvent.rootAuthClientClose, ClientEvent.proxyClientClose] := by
  simp [Cluster.loginCalls, Cluster.login, Cluster.loginConnected,
    Cluster.closeRootClusterClients, TeleportClient.SSHLogin, TeleportClient.record,
    TeleportClient.UpdateUsername, TeleportClient.ConnectToRootCluster,
    TeleportClient.AttemptDeviceLogin, TeleportClient.SaveProfile,
    TeleportClient.ProfileStatus, h1, h2, h3, h4, h5]

theorem deviceLoginBeforeSave_sound (l : List ClientEvent) (h : deviceLoginBeforeSave l = true)
    (pre post : List ClientEvent) (b : Bool) (r : Option GoError)
    (hl : l = pre ++ ClientEvent.saveProfile b r :: post) :
    ∃ k, ClientEvent.attemptDeviceLogin k none ∈ pre := by
  induction l generalizing pre with
  | nil => simp at hl
  | cons x t ih =>
    cases pre with
    | nil =>
      simp only [List.nil_append, List.cons.injEq] at hl
      rw [hl.1] at h
      simp [deviceLoginBeforeSave] at h
    | cons y pre' =>
      simp only [List.cons_append, List.cons.injEq] at hl
      obtain ⟨hxy, ht⟩ := hl
      subst hxy
      by_cases hx : ∃ k, x = ClientEvent.attemptDeviceLogin k none
      · obtain ⟨k, hk⟩ := hx
        exact ⟨k, by simp [hk]⟩
      · have hrec : deviceLoginBeforeSave t = true := by
          cases x with
          | attemptDeviceLogin k err =>
            cases err with
            | none => exact absurd ⟨k, rfl⟩ hx
            | some e => simpa [deviceLoginBeforeSave] using h
          | saveProfile b' r' => simp [deviceLoginBeforeSave] at h
          | _ => simpa [deviceLoginBeforeSave] using h
        obtain ⟨k, hk⟩ := ih hrec pre' ht
        exact ⟨k, List.mem_cons_of_mem _ hk⟩

theorem login_deviceLoginBeforeSave {F : Type} (c : Cluster F) (f : F) :
    deviceLoginBeforeSave (c.loginCalls f) = true := by
  rcases login_paths c f with ⟨e, h, _⟩ | ⟨key, e, h, _⟩ | ⟨key, e, h, _⟩ | ⟨key, e, h, _⟩ |
    ⟨key, e, h, _⟩ | ⟨key, st, h, _⟩ <;> rw [h] <;> rfl

/-! ## The claims on `login` -/

/-- C5. In every run of `login` in which credential acquisition and the root-cluster
connection succeed and `AttemptDeviceLogin` fails with `e` (a run in which
`AttemptDeviceLogin` fails is such a run), `login` returns the wrapped `e`, no call of
`SaveProfile` is made, and the cached status of the cluster is the one before the attempt. In every run of `login`, a call of `SaveProfile` comes after a
successful `AttemptDeviceLogin`. -/
theorem login_device_trust_failure_not_persisted {F : Type} (c : Cluster F) (f : F)
    (key : KeyRing) (e : GoError)
    (hdev : ClientEvent.attemptDeviceLogin key (some e) ∈ c.loginCalls f) :
    (ClientEvent.sshLogin (Except.ok key) ∈ c.loginCalls f ∧
      ClientEvent.connectToRootCluster key none ∈ c.loginCalls f) ∧
    (c.login f).1 = some (traceWrapErr e) ∧
    (∀ (b : Bool) (r : Option GoError), ClientEvent.saveProfile b r ∉ c.loginCalls f) ∧
    (c.login f).2.status = c.status ∧
    (∀ (G : Type) (c' : Cluster G) (g : G) (pre post : List ClientEvent) (b : Bool)
      (r : Option GoError), c'.loginCalls g = pre ++ ClientEvent.saveProfile b r :: post →
        ∃ k, ClientEvent.attemptDeviceLogin k none ∈ pre) := by
  refine ⟨?_, ?_, ?_, ?_, ?_⟩
  · rcases login_paths c f with ⟨e', h, _⟩ | ⟨key', e', h, _⟩ | ⟨key', e', h, _⟩ |
      ⟨key', e', h, _⟩ | ⟨key', e', h, _⟩ | ⟨key', st, h, _⟩ <;> rw [h] at hdev ⊢ <;>
      simp at hdev
    simp [hdev.1]
  · rcases login_paths c f with ⟨e', h, _⟩ | ⟨key', e', h, _⟩ | ⟨key', e', h, hr, _⟩ |
      ⟨key', e', h, _⟩ | ⟨key', e', h, _⟩ | ⟨key', st, h, _⟩ <;> rw [h] at hdev <;>
      simp at hdev
    rw [hr, hdev.2]
  · intro b r hmem
    rcases login_paths c f with ⟨e', h, _⟩ | ⟨key', e', h, _⟩ | ⟨key', e', h, _⟩ |
      ⟨key', e', h, _⟩ | ⟨key', e', h, _⟩ | ⟨key', st, h, _⟩ <;> rw [h] at hdev hmem <;>
      simp at hdev hmem
  · rcases login_paths c f with ⟨e', h, _⟩ | ⟨key', e', h, _⟩ | ⟨key', e', h, _, hs⟩ |
      ⟨key', e', h, _⟩ | ⟨key', e', h, _⟩ | ⟨key', st, h, _⟩ <;> rw [h] at hdev <;>
      simp at hdev
    exact hs
  · intro G c' g pre post b r hl
    exact deviceLoginBeforeSave_sound _ (login_deviceLoginBeforeSave c' g) pre post b r hl

/-- C5, on a run whose device login is denied. -/
theorem login_device_trust_failure_not_persisted_witness :
    ((scriptedCluster (Except.ok { Username := "alice" }) none (some someFailure) none
      (Except.ok freshStatus)).login ()).1 = some (traceWrapErr someFailure) ∧
    ((scriptedCluster (Except.ok { Username := "alice" }) none (some someFailure) none
      (Except.ok freshStatus)).login ()).2.status = staleStatus :=
  have h := login_device_trust_failure_not_persisted
    (scriptedCluster (Except.ok { Username := "alice" }) none (some someFailure) none
      (Except.ok freshStatus)) () { Username := "alice" } someFailure
    (by decide)
  ⟨h.2.1, h.2.2.2.1⟩

/-- C6, as stated, fails: in the run in which `SaveProfile(true)` succeeds and
`ProfileStatus` fails, `login` returns an error after the profile has been persisted. -/
theorem login_error_after_profile_persisted :
    ((scriptedCluster (Except.ok { Username := "alice" }) none none none
      (Except.error someFailure)).login ()).1 = some (traceWrapErr someFailure) ∧
    ClientEvent.saveProfile true none ∈
      (scriptedCluster (Except.ok { Username := "alice" }) none none none
        (Except.error someFailure)).loginCalls () ∧
    (scriptedCluster (Except.ok { Username := "alice" }) none none none
        (Except.error someFailure)).loginCalls () =
      [ClientEvent.sshLogin (Except.ok { Username := "alice" }),
       ClientEvent.updateUsername "alice",
       ClientEvent.connectToRootCluster { Username := "alice" } none,
       ClientEvent.attemptDeviceLogin { Username := "alice" } none,
       ClientEvent.saveProfile true none,
       ClientEvent.profileStatus (Except.error someFailure),
       ClientEvent.rootAuthClientClose, ClientEvent.proxyClientClose] := by
  decide

/-- C6, amended. Every run of `login` ends in exactly one of three states: (a) `login`
returns nil, `SaveProfile(true)` succeeded and the cached status is the reloaded one;
(b) `login` returns an error, no call of `SaveProfile` succeeded and the cached status is
the one before the attempt; (c) `login` returns the wrapped error of `ProfileStatus`,
`SaveProfile(true)` had succeeded before it, and the cached status is the one before the
attempt. -/
theorem login_ends_in_one_of_three_states {F : Type} (c : Cluster F) (f : F) :
    ((c.login f).1 = none ∧ ClientEvent.saveProfile true none ∈ c.loginCalls f ∧
      ∃ status, ClientEvent.profileStatus (Except.ok status) ∈ c.loginCalls f ∧
        (c.login f).2.status = status) ∨
    ((c.login f).1.isSome = true ∧
      (∀ b : Bool, ClientEvent.saveProfile b none ∉ c.loginCalls f) ∧
      (c.login f).2.status = c.status) ∨
    (∃ e, (c.login f).1 = some (traceWrapErr e) ∧
      ClientEvent.saveProfile true none ∈ c.loginCalls f ∧
      ClientEvent.profileStatus (Except.error e) ∈ c.loginCalls f ∧
      (c.login f).2.status = c.status) := by
  rcases login_paths c f with ⟨e, h, hr, hs⟩ | ⟨key, e, h, hr, hs⟩ | ⟨key, e, h, hr, hs⟩ |
    ⟨key, e, h, hr, hs⟩ | ⟨key, e, h, hr, hs⟩ | ⟨key, st, h, hr, hs⟩
  · right; left; simp [h, hr, hs]
  · right; left; simp [h, hr, hs]
  · right; left; simp [h, hr, hs]
  · right; left; simp [h, hr, hs]
  · right; right; exact ⟨e, by simp [h, hr, hs]⟩
  · left; simp [h, hr, hs]

/-- C6, amended, on the fully successful run: state (a). -/
theorem login_ends_in_one_of_three_states_witness :
    ((scriptedCluster (Except.ok { Username := "alice" }) none none none
      (Except.ok freshStatus)).login ()).1 = none ∧
    ((scriptedCluster (Except.ok { Username := "alice" }) none none none
      (Except.ok freshStatus)).login ()).2.status = freshStatus := by
  rcases login_ends_in_one_of_three_states
    (scriptedCluster (Except.ok { Username := "alice" }) none none none
      (Except.ok freshStatus)) () with h | h | h
  · exact ⟨h.1, by decide⟩
  · exact absurd h.1 (by decide)
  · obtain ⟨e, he, _⟩ := h
    have hn : ((scriptedCluster (Except.ok { Username := "alice" }) none none none
      (Except.ok freshStatus)).login ()).1 = none := by decide
    rw [hn] at he
    cases he

/-- C7. In every run of `login` in which `ConnectToRootCluster` succeeds, the root auth
client and the proxy client are each closed once, and these two calls are the last ones
before `login` returns, whatever the later steps do. In a run in which the acquisition or
the connection fails, neither is closed. When every collaborator call succeeds, `login`
returns nil, replaces the cached status by the reloaded one and makes these calls, in this
order: `SSHLogin`, `UpdateUsername`, `ConnectToRootCluster`, `AttemptDeviceLogin`,
`SaveProfile(true)`, `ProfileStatus`, the two closes; so the connection is opened once
and closed once, the profile is saved once, with `true`, and the status is reloaded
once. A run that returns nil is such a run. -/
theorem login_root_cluster_connection_scoped {F : Type} (c : Cluster F) (f : F) :
    ((∃ key, ClientEvent.connectToRootCluster key none ∈ c.loginCalls f) →
      (c.loginCalls f).count ClientEvent.rootAuthClientClose = 1 ∧
      (c.loginCalls f).count ClientEvent.proxyClientClose = 1 ∧
      ∃ pre, c.loginCalls f
        = pre ++ [ClientEvent.rootAuthClientClose, ClientEvent.proxyClientClose]) ∧
    (((∃ e, ClientEvent.sshLogin (Except.error e) ∈ c.loginCalls f) ∨
      (∃ key e, ClientEvent.connectToRootCluster key (some e) ∈ c.loginCalls f)) →
      ClientEvent.rootAuthClientClose ∉ c.loginCalls f ∧
      ClientEvent.proxyClientClose ∉ c.loginCalls f) ∧
    (∀ (key : KeyRing) (status : ProfileStatus),
      c.clusterClient.sshLoginOutcome c.clusterClient.calls f = Except.ok key →
      c.clusterClient.connectOutcome
        (c.clusterClient.calls ++ [ClientEvent.sshLogin (Except.ok key),
          ClientEvent.updateUsername key.Username]) key = none →
      c.clusterClient.deviceLoginOutcome
        (c.clusterClient.calls ++ [ClientEvent.sshLogin (Except.ok key),
          ClientEvent.updateUsername key.Username,
          ClientEvent.connectToRootCluster key none]) key = none →
      c.clusterClient.saveProfileOutcome
        (c.clusterClient.calls ++ [ClientEvent.sshLogin (Except.ok key),
          ClientEvent.updateUsername key.Username,
          ClientEvent.connectToRootCluster key none,
          ClientEvent.attemptDeviceLogin key none]) true = none →
      c.clusterClient.profileStatusOutcome
        (c.clusterClient.calls ++ [ClientEvent.sshLogin (Except.ok key),
          ClientEvent.updateUsername key.Username,
          ClientEvent.connectToRootCluster key none,
          ClientEvent.attemptDeviceLogin key none,
          ClientEvent.saveProfile true none]) = Except.ok status →
      (c.login f).1 = none ∧
      (c.login f).2.status = status ∧
      c.loginCalls f =
        [ClientEvent.sshLogin (Except.ok key), ClientEvent.updateUsername key.Username,
         ClientEvent.connectToRootCluster key none, ClientEvent.attemptDeviceLogin key none,
         ClientEvent.saveProfile true none, ClientEvent.profileStatus (Except.ok status),
         ClientEvent.rootAuthClientClose, ClientEvent.proxyClientClose] ∧
      (c.loginCalls f).countP ClientEvent.isConnectToRootCluster = 1 ∧
      (c.loginCalls f).countP ClientEvent.isClose = 2 ∧
      (c.loginCalls f).countP ClientEvent.isSaveProfile = 1 ∧
      (c.loginCalls f).count (ClientEvent.saveProfile true none) = 1 ∧
      (c.loginCalls f).countP ClientEvent.isProfileStatus = 1) ∧
    ((c.login f).1 = none →
      ∃ key status, c.loginCalls f =
        [ClientEvent.sshLogin (Except.ok key), ClientEvent.updateUsername key.Username,
         ClientEvent.connectToRootCluster key none, ClientEvent.attemptDeviceLogin key none,
         ClientEvent.saveProfile true none, ClientEvent.profileStatus (Except.ok status),
         ClientEvent.rootAuthClientClose, ClientEvent.proxyClientClose]) ∧
    (c.login f).2.clusterClient.calls = c.clusterClient.calls ++ c.loginCalls f := by
  refine ⟨?_, ?_, ?_, ?_, login_calls_append c f⟩
  · rintro ⟨k, hk⟩
    rcases login_paths c f with ⟨e, h, _⟩ | ⟨key, e, h, _⟩ | ⟨key, e, h, _⟩ |
      ⟨key, e, h, _⟩ | ⟨key, e, h, _⟩ | ⟨key, st, h, _⟩ <;> rw [h] at hk ⊢
    · simp at hk
    · simp at hk
    · exact ⟨by simp [List.count_cons], by simp [List.count_cons],
        [ClientEvent.sshLogin (Except.ok key), ClientEvent.updateUsername key.Username,
        ClientEvent.connectToRootCluster key none,
        ClientEvent.attemptDeviceLogin key (some e)], rfl⟩
    · exact ⟨by simp [List.count_cons], by simp [List.count_cons],
        [ClientEvent.sshLogin (Except.ok key), ClientEvent.updateUsername key.Username,
        ClientEvent.connectToRootCluster key none, ClientEvent.attemptDeviceLogin key none,
        ClientEvent.saveProfile true (some e)], rfl⟩
    · exact ⟨by simp [List.count_cons], by simp [List.count_cons],
        [ClientEvent.sshLogin (Except.ok key), ClientEvent.updateUsername key.Username,
        ClientEvent.connectToRootCluster key none, ClientEvent.attemptDeviceLogin key none,
        ClientEvent.saveProfile true none, ClientEvent.profileStatus (Except.error e)], rfl⟩
    · exact ⟨by simp [List.count_cons], by simp [List.count_cons],
        [ClientEvent.sshLogin (Except.ok key), ClientEvent.updateUsername key.Username,
        ClientEvent.connectToRootCluster key none, ClientEvent.attemptDeviceLogin key none,
        ClientEvent.saveProfile true none, ClientEvent.profileStatus (Except.ok st)], rfl⟩
  · intro hfail
    rcases login_paths c f with ⟨e, h, _⟩ | ⟨key, e, h, _⟩ | ⟨key, e, h, _⟩ |
      ⟨key, e, h, _⟩ | ⟨key, e, h, _⟩ | ⟨key, st, h, _⟩ <;> rw [h] at hfail ⊢ <;>
      simp at hfail ⊢
  · intro key status h1 h2 h3 h4 h5
    obtain ⟨hret, hst, hcalls⟩ := login_all_succeed c f key status h1 h2 h3 h4 h5
    refine ⟨hret, hst, hcalls, ?_, ?_, ?_, ?_, ?_⟩ <;> rw [hcalls] <;>
      simp [List.count_cons, ClientEvent.isConnectToRootCluster, ClientEvent.isClose,
        ClientEvent.isSaveProfile, ClientEvent.isProfileStatus]
  · intro hret
    rcases login_paths c f with ⟨e, h, hr, _⟩ | ⟨key, e, h, hr, _⟩ | ⟨key, e, h, hr, _⟩ |
      ⟨key, e, h, hr, _⟩ | ⟨key, e, h, hr, _⟩ | ⟨key, st, h, hr, _⟩
    all_goals first
      | exact ⟨key, st, h⟩
      | (rw [hr] at hret; cases hret)

/-- C7, on the run in which every collaborator call succeeds, and on a run whose
connection fails. -/
theorem login_root_cluster_connection_scoped_witness :
    (((scriptedCluster (Except.ok { Username := "alice" }) none none none
        (Except.ok freshStatus)).login ()).1 = none ∧
      ((scriptedCluster (Except.ok { Username := "alice" }) none none none
        (Except.ok freshStatus)).login ()).2.status = freshStatus ∧
      (scriptedCluster (Except.ok { Username := "alice" }) none none none
        (Except.ok freshStatus)).loginCalls () =
          [ClientEvent.sshLogin (Except.ok { Username := "alice" }),
           ClientEvent.updateUsername "alice",
           ClientEvent.connectToRootCluster { Username := "alice" } none,
           ClientEvent.attemptDeviceLogin { Username := "alice" } none,
           ClientEvent.saveProfile true none,
           ClientEvent.profileStatus (Except.ok freshStatus),
           ClientEvent.rootAuthClientClose, ClientEvent.proxyClientClose]) ∧
    (((scriptedCluster (Except.ok { Username := "alice" }) none none none
        (Except.ok freshStatus)).loginCalls ()).count ClientEvent.rootAuthClientClose = 1 ∧
      ((scriptedCluster (Except.ok { Username := "alice" }) none none none
        (Except.ok freshStatus)).loginCalls ()).count ClientEvent.proxyClientClose = 1) ∧
    ClientEvent.rootAuthClientClose ∉
      (scriptedCluster (Except.ok { Username := "alice" }) (some someFailure) none none
        (Except.ok freshStatus)).loginCalls () :=
  have h := (login_root_cluster_connection_scoped
    (scriptedCluster (Except.ok { Username := "alice" }) none none none
      (Except.ok freshStatus)) ()).1 ⟨{ Username := "alice" }, by decide⟩
  have hall := (login_root_cluster_connection_scoped
    (scriptedCluster (Except.ok { Username := "alice" }) none none none
      (Except.ok freshStatus)) ()).2.2.1 { Username := "alice" } freshStatus
      rfl rfl rfl rfl rfl
  have h' := (login_root_cluster_connection_scoped
    (scriptedCluster (Except.ok { Username := "alice" }) (some someFailure) none none
      (Except.ok freshStatus)) ()).2.1 (Or.inr ⟨{ Username := "alice" }, someFailure, by decide⟩)
  ⟨⟨hall.1, hall.2.1, hall.2.2.1⟩, ⟨h.1, h.2.1⟩, h'.1⟩

end Teleterm
